import Mathlib

/-!
Verification of the Cherry Servers Ansible collection's declarative
resource reconciler, shallowly embedded from the Python sources under
`plugins/`.  Module parameter dictionaries become structures with
`Option` fields (Python `None` = `none`), API payload dictionaries
become association lists over a `Val` type, `module.exit_json` /
`module.fail_json` become an `Outcome` value, and every
`api_client.send_request` is recorded in a trace of `ApiCall`s.
Remote responses (status codes, bodies of re-fetches) are supplied by
explicit `Remote` structures, so each embedded function is a pure,
executable function of its inputs.
-/

set_option maxRecDepth 4000

namespace Cherry

/-- A JSON-ish value appearing in an API request payload. -/
inductive Val
  | vstr : String → Val
  | vint : Int → Val
  | vbool : Bool → Val
  | vtags : List (String × String) → Val
  | vstrs : List String → Val
  | vnone : Val
deriving DecidableEq, Repr

/-- Lift an optional value into a payload value (Python passes `None` through). -/
def optVal (f : α → Val) : Option α → Val
  | some a => f a
  | none => Val.vnone

/-- One `api_client.send_request` call: HTTP method, path and payload. -/
inductive ApiCall
  | get : String → ApiCall
  | put : String → List (String × Val) → ApiCall
  | post : String → List (String × Val) → ApiCall
  | delete : String → ApiCall
deriving DecidableEq, Repr

/-- Whether a transport call mutates remote state (POST, PUT or DELETE). -/
def ApiCall.isMutating : ApiCall → Bool
  | .get _ => false
  | .put _ _ => true
  | .post _ _ => true
  | .delete _ => true

/-- The mutating calls of a trace, in order. -/
def mutating (tr : List ApiCall) : List ApiCall :=
  tr.filter ApiCall.isMutating

/-- Module termination: `exit_json(changed=...)` or `fail_json(msg=...)`. -/
inductive Outcome
  | exit : Bool → Outcome
  | fail : String → Outcome
deriving DecidableEq, Repr

/-- Whether an outcome is a `fail_json` (fatal error). -/
def Outcome.isFail : Outcome → Bool
  | .exit _ => false
  | .fail _ => true

/-- Python `f"{x}"` rendering of an optional value (`None` prints as `"None"`). -/
def pyOptStr : Option String → String
  | some s => s
  | none => "None"

/-- Python `f"{x}"` rendering of an optional integer id. -/
def pyOptNatStr : Option Nat → String
  | some n => toString n
  | none => "None"

/-! ## `module_utils/common.py`: `generate_password` -/

/-- `string.ascii_lowercase`. -/
def ascii_lowercase : List Char := "abcdefghijklmnopqrstuvwxyz".toList

/-- `string.ascii_uppercase`. -/
def ascii_uppercase : List Char := "ABCDEFGHIJKLMNOPQRSTUVWXYZ".toList

/-- `string.digits`. -/
def ascii_digits : List Char := "0123456789".toList

/-- `string.ascii_uppercase + string.ascii_lowercase + string.digits`,
the alphabet of the trailing password characters. -/
def alnum_chars : List Char := ascii_uppercase ++ ascii_lowercase ++ ascii_digits

/-- `random.choice(l)`, with the randomness supplied as a natural number. -/
def rand_choice (l : List Char) (r : Nat) : Char := l.getD (r % l.length) 'a'

/-- `common.generate_password(length)`.  The random stream `rand` supplies
one natural number per `random.choice` call, in call order. -/
def generate_password (length : Int) (rand : Nat → Nat) : String :=
  let length1 : Int := if length < 8 then 8 else length
  let length2 : Int := if length1 > 24 then 24 else length1
  let n : Nat := length2.toNat
  let lower := rand_choice ascii_lowercase (rand 0)
  let upper := rand_choice ascii_uppercase (rand 1)
  let digit := rand_choice ascii_digits (rand 2)
  let remaining := (List.range (n - 3)).map (fun i => rand_choice alnum_chars (rand (3 + i)))
  String.mk (lower :: upper :: digit :: remaining)

/-! ## Server data model (`plugins/modules/server.py`) -/

/-- The `state` module option of the server module. -/
inductive SState
  | present
  | active
  | absent
deriving DecidableEq, Repr

/-- A normalized server resource (`normalizers.normalize_server`), restricted
to the fields the server module's reconciliation logic reads. -/
structure Server where
  id : Nat
  hostname : String
  tags : List (String × String)
  image : String
  ssh_keys : List String
  status : String
deriving DecidableEq, Repr

/-- The server module's parameters (`get_module_args` in `server.py`);
unset options are `none`. -/
structure ServerParams where
  state : SState
  id : Option Nat
  project_id : Option String
  plan : Option String
  image : Option String
  os_partition_size : Option Int
  region : Option String
  hostname : Option String
  ssh_keys : Option (List String)
  extra_ip_addresses : Option (List String)
  user_data : Option String
  tags : Option (List (String × String))
  spot_market : Bool
  storage_id : Option Int
  active_timeout : Nat
  allow_reinstall : Bool
deriving DecidableEq, Repr

/-- `server.get_basic_server_update_request(params, server)`: the fields
`hostname` and `tags` are added to the request iff they are set and differ
from the observed server. -/
def get_basic_server_update_request (params : ServerParams) (server : Server) :
    List (String × Val) × Bool :=
  let req : List (String × Val) := []
  let changed := false
  let (req, changed) :=
    match params.hostname with
    | some v => if v ≠ server.hostname then (req ++ [("hostname", Val.vstr v)], true)
                else (req, changed)
    | none => (req, changed)
  let (req, changed) :=
    match params.tags with
    | some v => if v ≠ server.tags then (req ++ [("tags", Val.vtags v)], true)
                else (req, changed)
    | none => (req, changed)
  (req, changed)

/-- `server.get_reinstall_server_update_request(params, server)`:
`user_data` and `os_partition_size` are not tracked in server state, so any
set value counts as changed; `image` and `ssh_keys` are compared against the
observed server; a fresh password and the `"reinstall"` action type are
always appended to the request. -/
def get_reinstall_server_update_request (params : ServerParams) (server : Server)
    (rand : Nat → Nat) : List (String × Val) × Bool :=
  let req : List (String × Val) := []
  let changed := false
  let (req, changed) :=
    match params.user_data with
    | some v => (req ++ [("user_data", Val.vstr v)], true)
    | none => (req, changed)
  let (req, changed) :=
    match params.os_partition_size with
    | some v => (req ++ [("os_partition_size", Val.vint v)], true)
    | none => (req, changed)
  let (req, changed) :=
    match params.image with
    | some v => if v ≠ server.image then (req ++ [("image", Val.vstr v)], true)
                else (req, changed)
    | none => (req, changed)
  let (req, changed) :=
    match params.ssh_keys with
    | some v => if v ≠ server.ssh_keys then (req ++ [("ssh_keys", Val.vstrs v)], true)
                else (req, changed)
    | none => (req, changed)
  let req := req ++ [("password", Val.vstr (generate_password 16 rand)),
                     ("type", Val.vstr "reinstall")]
  (req, changed)

/-- Whether the server module's diff reports any difference
(`changed = basic_changed or rebuild_changed` in `update_state`). -/
def server_changed (params : ServerParams) (server : Server) (rand : Nat → Nat) : Bool :=
  (get_basic_server_update_request params server).2
    || (get_reinstall_server_update_request params server rand).2

/-- The remote API's behaviour during one server-module invocation: the
status codes it answers the module's mutating calls with, the `status`
field of the reinstall response body, the server created by `POST .../servers`,
and the successive servers returned by repeated `GET servers/{id}` polls. -/
structure Remote where
  putStatus : Nat
  reinstallStatus : Nat
  reinstallBodyStatus : String
  deleteStatus : Nat
  createStatus : Nat
  createdServer : Server
  refetch : Nat → Server

/-- `server.wait_for_active(server, ...)` (`server.py` lines 551-565): poll
`GET servers/{id}` and sleep 10 seconds per iteration until the status is
`"deployed"`, failing once at least `active_timeout` seconds have passed.
Returns the failure message (if any), the seconds slept, and the paths of
the GET polls issued.  `k` indexes into the remote's poll responses. -/
def wait_for_active (refetch : Nat → Server) (active_timeout : Nat)
    (server : Server) (time_passed : Nat) (k : Nat) :
    Option String × Nat × List String :=
  if server.status = "deployed" then (none, time_passed, [])
  else
    let getPath := "servers/" ++ toString server.id
    let server2 := refetch k
    let time2 := time_passed + 10
    if active_timeout ≤ time2 then
      (some "Timed out waiting for server to become active", time2, [getPath])
    else
      let rest := wait_for_active refetch active_timeout server2 time2 (k + 1)
      (rest.1, rest.2.1, getPath :: rest.2.2)
termination_by active_timeout - time_passed
decreasing_by omega

/-- `ServerManager.wait_for_active` (`resource_managers/server_manager.py`
lines 98-113): same loop with the sleep before the re-fetch; returns the
failure message (if any) and the seconds slept. -/
def manager_wait_for_active (refetch : Nat → Server) (timeout : Nat)
    (server : Server) (time_passed : Nat) (k : Nat) : Option String × Nat :=
  if server.status = "deployed" then (none, time_passed)
  else
    let time2 := time_passed + 10
    let server2 := refetch k
    if timeout ≤ time2 then
      (some "timed out waiting for server to become active", time2)
    else manager_wait_for_active refetch timeout server2 time2 (k + 1)
termination_by timeout - time_passed
decreasing_by omega

/-- The tail of `server.update_state` handling `rebuild_changed` (the
`reinstall_server` call, including the wait when `state == "active"`),
followed by the final re-fetch and `exit_json(changed=True)`. -/
def update_state_rebuild (p : ServerParams) (r : Remote) (server : Server)
    (rebuild : List (String × Val) × Bool) (tr : List ApiCall) : Outcome × List ApiCall :=
  let finalGet := ApiCall.get ("servers/" ++ pyOptNatStr p.id)
  if rebuild.2 then
    if p.allow_reinstall then
      let tr2 := tr ++ [ApiCall.post ("servers/" ++ toString server.id ++ "/actions") rebuild.1]
      if r.reinstallStatus ≠ 200 then (Outcome.fail "Failed to update server", tr2)
      else if p.state = SState.active then
        let w := wait_for_active r.refetch p.active_timeout
          { server with status := r.reinstallBodyStatus } 0 0
        let tr3 := tr2 ++ w.2.2.map ApiCall.get
        match w.1 with
        | some m => (Outcome.fail m, tr3)
        | none => (Outcome.exit true, tr3 ++ [finalGet])
      else (Outcome.exit true, tr2 ++ [finalGet])
    else (Outcome.fail "The options you've selected require server reinstalling.", tr)
  else (Outcome.exit true, tr ++ [finalGet])

/-- `server.update_state` (`server.py` lines 340-377): fetch the server,
compute the basic and reinstall diffs, short-circuit in check mode or when
nothing changed, apply the basic PUT first, then the reinstall action,
then re-fetch and report `changed=True`. -/
def update_state (p : ServerParams) (r : Remote) (check_mode : Bool)
    (server : Server) (rand : Nat → Nat) : Outcome × List ApiCall :=
  let getCall := ApiCall.get ("servers/" ++ pyOptNatStr p.id)
  let basic := get_basic_server_update_request p server
  let rebuild := get_reinstall_server_update_request p server rand
  let changed := basic.2 || rebuild.2
  if check_mode then (Outcome.exit changed, [getCall])
  else if changed = false then (Outcome.exit false, [getCall])
  else if basic.2 then
    let tr2 := [getCall, ApiCall.put ("servers/" ++ toString server.id) basic.1]
    if r.putStatus ≠ 201 then (Outcome.fail "Failed to update server", tr2)
    else update_state_rebuild p r server rebuild tr2
  else update_state_rebuild p r server rebuild [getCall]

/-- A base64 alphabet character (`A-Z`, `a-z`, `0-9`, `+`, `/`). -/
def is_b64_char (c : Char) : Bool :=
  c.isUpper || c.isLower || c.isDigit || c = '+' || c = '/'

/-- Models `base64.b64decode(s, validate=True)` succeeding: length a
multiple of four, at most two trailing `=` padding characters, and every
other character drawn from the base64 alphabet. -/
def is_valid_base64 (s : String) : Bool :=
  let cs := s.data
  let pad := (cs.reverse.takeWhile (fun c => c = '=')).length
  decide (cs.length % 4 = 0) && decide (pad ≤ 2)
    && (cs.take (cs.length - pad)).all is_b64_char

/-- Whether the `user_data` validation in `creation_state` passes. -/
def user_data_ok (p : ServerParams) : Bool :=
  match p.user_data with
  | some ud => is_valid_base64 ud
  | none => true

/-- The payload of the server-creation POST (`server.create_server`);
unset options are passed through as `None`. -/
def create_server_payload (p : ServerParams) : List (String × Val) :=
  [("plan", optVal Val.vstr p.plan),
   ("image", optVal Val.vstr p.image),
   ("os_partition_size", optVal Val.vint p.os_partition_size),
   ("region", optVal Val.vstr p.region),
   ("hostname", optVal Val.vstr p.hostname),
   ("ssh_keys", optVal Val.vstrs p.ssh_keys),
   ("ip_addresses", optVal Val.vstrs p.extra_ip_addresses),
   ("user_data", optVal Val.vstr p.user_data),
   ("spot_market", Val.vbool p.spot_market),
   ("storage_id", optVal Val.vint p.storage_id),
   ("tags", optVal Val.vtags p.tags)]

/-- `server.creation_state` (`server.py` lines 459-485): validate required
options and `user_data`, short-circuit in check mode, create the server,
optionally wait for it to become active, re-fetch and report changed. -/
def creation_state (p : ServerParams) (r : Remote) (check_mode : Bool) :
    Outcome × List ApiCall :=
  if p.project_id.isNone || p.region.isNone || p.plan.isNone then
    (Outcome.fail "Missing required options for server creation.", [])
  else if user_data_ok p = false then
    (Outcome.fail "Invalid user_data string", [])
  else if check_mode then (Outcome.exit true, [])
  else
    let tr1 := [ApiCall.post ("projects/" ++ pyOptStr p.project_id ++ "/servers")
                  (create_server_payload p)]
    if r.createStatus ≠ 201 then (Outcome.fail "Failed to create server", tr1)
    else
      let server := r.createdServer
      let finalGet := ApiCall.get ("servers/" ++ toString server.id)
      if p.state = SState.active then
        let w := wait_for_active r.refetch p.active_timeout server 0 0
        let tr2 := tr1 ++ w.2.2.map ApiCall.get
        match w.1 with
        | some m => (Outcome.fail m, tr2)
        | none => (Outcome.exit true, tr2 ++ [finalGet])
      else (Outcome.exit true, tr1 ++ [finalGet])

/-- `server.absent_state` (`server.py` lines 488-497): if the server is
found, short-circuit in check mode, else delete it; report `changed=False`
when it is already gone. -/
def absent_state (p : ServerParams) (r : Remote) (check_mode : Bool)
    (found : Option Server) : Outcome × List ApiCall :=
  let getCall := ApiCall.get ("servers/" ++ pyOptNatStr p.id)
  match found with
  | some server =>
    if check_mode then (Outcome.exit true, [getCall])
    else
      let tr := [getCall, ApiCall.delete ("servers/" ++ toString server.id)]
      if r.deleteStatus ≠ 204 then (Outcome.fail "Failed to delete server", tr)
      else (Outcome.exit true, tr)
  | none => (Outcome.exit false, [getCall])

/-- `StandardModule._update_resource` (`standard_module.py` lines 67-82),
abstracted over the computed update requests: returns the outcome and
whether `_perform_update` was invoked. -/
def standard_update_resource (requests : List String) (check_mode : Bool) :
    Outcome × Bool :=
  if check_mode then
    if requests.isEmpty = false then (Outcome.exit true, false)
    else (Outcome.exit false, false)
  else if requests.isEmpty then (Outcome.exit false, false)
  else (Outcome.exit true, true)

/-! ## Storage data model (`plugins/modules/storage.py`) -/

/-- A normalized storage volume (`normalizers.normalize_storage`),
restricted to the fields the storage module's reconciliation logic reads;
`target_server_id` is `none` when the volume is detached. -/
structure Storage where
  id : Nat
  size : Int
  description : Option String
  target_server_id : Option Int
deriving DecidableEq, Repr

/-- The storage module's parameters relevant to update and deletion. -/
structure StorageParams where
  id : Option Nat
  size : Option Int
  description : Option String
  target_server_id : Option Int
deriving DecidableEq, Repr

/-- Status codes the remote answers the storage module's calls with. -/
structure StorageRemote where
  detachStatus : Nat
  deleteStatus : Nat
deriving DecidableEq, Repr

/-- Python truthiness of `storage["target_server_id"]`
(`None` and `0` are falsy). -/
def storage_attached (st : Storage) : Bool :=
  match st.target_server_id with
  | some v => decide (v ≠ 0)
  | none => false

/-- `storage.get_update_request(params, storage)` (`storage.py` lines
380-399): `size` and `description` are added to the request iff they are
set and differ from the observed volume. -/
def storage_get_update_request (params : StorageParams) (storage : Storage) :
    List (String × Val) × Bool :=
  let req : List (String × Val) := []
  let changed := false
  let (req, changed) :=
    match params.size with
    | some v => if storage.size ≠ v then (req ++ [("size", Val.vint v)], true)
                else (req, changed)
    | none => (req, changed)
  let (req, changed) :=
    match params.description with
    | some v => if storage.description ≠ some v
                then (req ++ [("description", Val.vstr v)], true)
                else (req, changed)
    | none => (req, changed)
  (req, changed)

/-- `storage.delete_storage(api_client, module, storage)` (`storage.py`
lines 364-377): detach first when the volume is attached, then delete. -/
def delete_storage (p : StorageParams) (r : StorageRemote) (storage : Storage) :
    Outcome × List ApiCall :=
  let delCall := ApiCall.delete ("storages/" ++ pyOptNatStr p.id)
  if storage_attached storage then
    let tr := [ApiCall.delete ("storages/" ++ toString storage.id ++ "/attachments")]
    if r.detachStatus ≠ 204 then (Outcome.fail "Failed to detach storage volume", tr)
    else
      let tr2 := tr ++ [delCall]
      if r.deleteStatus ≠ 204 then (Outcome.fail "Failed to delete storage volume", tr2)
      else (Outcome.exit true, tr2)
  else
    let tr2 := [delCall]
    if r.deleteStatus ≠ 204 then (Outcome.fail "Failed to delete storage volume", tr2)
    else (Outcome.exit true, tr2)

/-! ## Floating IP data model (`plugins/modules/floating_ip.py`) -/

/-- A floating IP resource as the module's update/delete logic reads it.
`ptr_record`, `a_record`, `tags`, `route_ip_id` and `target_server_id` are
the normalized field names compared by `get_update_request`;
`targeted_to` is the attachment reference read by `delete_fip`, with `0`
the sentinel for "not targeted" (the spec's unattached zero value). -/
structure Fip where
  id : String
  address : String
  ptr_record : Option String
  a_record : Option String
  tags : List (String × String)
  route_ip_id : Option String
  target_server_id : Option Int
  targeted_to : Int
deriving DecidableEq, Repr

/-- The floating-IP module's parameters relevant to lookup, update and
deletion. -/
structure FipParams where
  id : Option String
  address : Option String
  project_id : Option Nat
  ptr_record : Option String
  a_record : Option String
  tags : Option (List (String × String))
  route_ip_id : Option String
  target_server_id : Option Int
deriving DecidableEq, Repr

/-- The remote API's behaviour during a floating-IP invocation. -/
structure FipRemote where
  byIdStatus : Nat
  byId : Fip
  listResp : List Fip
  untargetStatus : Nat
  deleteStatus : Nat

/-- Drop a single trailing `'.'` (`fip["ptr_record"][:-1]` under the
`fip["ptr_record"][-1] == "."` guard; Python's `s[-1]` presupposes a
non-empty string). -/
def strip_trailing_dot (s : String) : String :=
  match s.data.getLast? with
  | some c => if c = '.' then String.mk s.data.dropLast else s
  | none => s

/-- The characters of a list up to (excluding) the first occurrence of the
separator `sep`; the whole list if `sep` never occurs. -/
def take_before (sep : List Char) : List Char → List Char
  | [] => []
  | c :: cs => if sep.isPrefixOf (c :: cs) then [] else c :: take_before sep cs

/-- `s.split(".cloud.cherryservers.net")[0]`: the part of the A record
before the zone suffix. -/
def strip_zone (s : String) : String :=
  String.mk (take_before ".cloud.cherryservers.net".toList s.data)

/-- `floating_ip.get_update_request(params, fip)` (`floating_ip.py` lines
349-380): normalize the observed `ptr_record` (trailing separator) and
`a_record` (zone suffix) before comparing, then diff `ptr_record`,
`a_record`, `tags`, `route_ip_id` and `target_server_id`. -/
def fip_get_update_request (params : FipParams) (fip : Fip) :
    List (String × Val) × Bool :=
  let fip :=
    match fip.ptr_record with
    | some p => { fip with ptr_record := some (strip_trailing_dot p) }
    | none => fip
  let fip :=
    match fip.a_record with
    | some a => { fip with a_record := some (strip_zone a) }
    | none => fip
  let req : List (String × Val) := []
  let changed := false
  let (req, changed) :=
    match params.ptr_record with
    | some v => if fip.ptr_record ≠ some v then (req ++ [("ptr_record", Val.vstr v)], true)
                else (req, changed)
    | none => (req, changed)
  let (req, changed) :=
    match params.a_record with
    | some v => if fip.a_record ≠ some v then (req ++ [("a_record", Val.vstr v)], true)
                else (req, changed)
    | none => (req, changed)
  let (req, changed) :=
    match params.tags with
    | some v => if fip.tags ≠ v then (req ++ [("tags", Val.vtags v)], true)
                else (req, changed)
    | none => (req, changed)
  let (req, changed) :=
    match params.route_ip_id with
    | some v => if fip.route_ip_id ≠ some v then (req ++ [("routed_to", Val.vstr v)], true)
                else (req, changed)
    | none => (req, changed)
  let (req, changed) :=
    match params.target_server_id with
    | some v => if fip.target_server_id ≠ some v
                then (req ++ [("targeted_to", Val.vint v)], true)
                else (req, changed)
    | none => (req, changed)
  (req, changed)

/-- `floating_ip.delete_fip` (`floating_ip.py` lines 310-324): short-circuit
in check mode, untarget the IP first when it is targeted to a server, then
delete it. -/
def delete_fip (p : FipParams) (r : FipRemote) (check_mode : Bool) (fip : Fip) :
    Outcome × List ApiCall :=
  if check_mode then (Outcome.exit true, [])
  else
    let delCall := ApiCall.delete ("ips/" ++ pyOptStr p.id)
    if fip.targeted_to ≠ 0 then
      let tr := [ApiCall.put ("ips/" ++ fip.id) [("targeted_to", Val.vint 0)]]
      if r.untargetStatus ≠ 200 then (Outcome.fail "Failed to untarget floating IP", tr)
      else
        let tr2 := tr ++ [delCall]
        if r.deleteStatus ≠ 204 then (Outcome.fail "Failed to delete floating IP", tr2)
        else (Outcome.exit true, tr2)
    else
      let tr2 := [delCall]
      if r.deleteStatus ≠ 204 then (Outcome.fail "Failed to delete floating IP", tr2)
      else (Outcome.exit true, tr2)

/-! ## Identity resolution -/

/-- The matching predicate of `common.find_resources` instantiated with the
floating-IP module's keys `("id", "address")`:
`any(resource[k] == params[k] for k in keys)` (a `None` parameter never
equals a resource value). -/
def fip_matches (p : FipParams) (f : Fip) : Bool :=
  decide (p.id = some f.id) || decide (p.address = some f.address)

/-- The rendering of the matching resources in the ambiguity error
(Python interpolates the list of matching dicts into the message). -/
def renderFips (l : List Fip) : String := toString (l.map Fip.id)

/-- `floating_ip.get_fip` (`floating_ip.py` lines 228-263): fetch by `id`
when given, else list the project's IPs, filter by the identity keys, fail
on more than one match, return `None` on zero matches. -/
def get_fip (p : FipParams) (r : FipRemote) : Except String (Option Fip) :=
  match p.id with
  | some _ =>
    if r.byIdStatus = 200 then Except.ok (some r.byId)
    else if r.byIdStatus = 404 then Except.ok none
    else Except.error "Unknown error retrieving floating IP"
  | none =>
    let ips := r.listResp.filter (fun f => fip_matches p f)
    if ips.length > 1 then
      Except.error ("More than one matching floating IP found: " ++ renderFips ips)
    else if ips.length = 0 then Except.ok none
    else Except.ok ips.head?

/-- A rendering of a payload value inside an interpolated message. -/
def renderVal : Val → String
  | Val.vstr s => s
  | Val.vint i => toString i
  | Val.vbool b => toString b
  | Val.vtags t => toString t
  | Val.vstrs l => toString l
  | Val.vnone => "None"

/-- The rendering of a list of resource dicts interpolated into the
`CherryModule._get_resource` ambiguity message (`{matching_resources}`). -/
def renderResources (l : List (List (String × Val))) : String :=
  toString (l.map (fun res => res.map (fun kv => (kv.1, renderVal kv.2))))

/-- Python `resource[k]` on a resource modeled as an association list
(the source indexes only keys the resource carries). -/
def lookup_item (res : List (String × Val)) (k : String) : Val :=
  (res.lookup k).getD Val.vnone

/-- `CherryModule._get_resource` (`cherry_module.py` lines 87-115) with
resources as association lists: filter the listed resources by the
identifier keys, fail on more than one match — interpolating the matches
into the message — and return `None` on zero matches. -/
def cherry_get_resource (keys : List String) (params : String → Option Val)
    (resp : List (List (String × Val))) : Except String (Option (List (String × Val))) :=
  let matching := resp.filter
    (fun res => keys.any (fun k => decide (params k = some (lookup_item res k))))
  if matching.length > 1 then
    Except.error ("Multiple matching resources found: " ++ renderResources matching)
  else if matching.length = 0 then Except.ok none
  else Except.ok matching.head?

/-- A normalized SSH key resource, restricted to the fields the sshkey
module's reconciliation reads. -/
structure SshKey where
  id : Nat
  label : String
  key : String
  fingerprint : String
deriving DecidableEq, Repr

/-- The resolution step of `sshkey.run_module` (`sshkey.py` lines
147-157) on the listed matching keys (the listing helper
`common.get_keys` is not under `src/`): more than one match fails the
module with a FIXED message that does not mention the matches; one match
is the resource the module proceeds with; zero means "create" (NotFound). -/
def sshkey_resolve (existing_keys : List SshKey) : Except String (Option SshKey) :=
  if existing_keys.length > 1 then
    Except.error "More than one SSH key matches the given parameters."
  else
    match existing_keys with
    | [] => Except.ok none
    | k :: _ => Except.ok (some k)

/-! ## Shared lemmas and sample data -/

/-- The characters the password docstring promises never to contain. -/
def forbidden_chars : List Char := "'\"`!$%&;#".toList

theorem rand_choice_mem (l : List Char) (hl : l ≠ []) (r : Nat) :
    rand_choice l r ∈ l := by
  unfold rand_choice
  have hlen : 0 < l.length := List.length_pos.mpr hl
  have h : r % l.length < l.length := Nat.mod_lt _ hlen
  rw [List.getD_eq_getElem l 'a' h]
  exact List.getElem_mem h

theorem generate_password_data (length : Int) (rand : Nat → Nat) :
    (generate_password length rand).data =
      rand_choice ascii_lowercase (rand 0) :: rand_choice ascii_uppercase (rand 1)
        :: rand_choice ascii_digits (rand 2)
        :: (List.range
              ((if (if length < 8 then 8 else length) > 24 then 24
                else if length < 8 then 8 else length).toNat - 3)).map
             (fun i => rand_choice alnum_chars (rand (3 + i))) := rfl

theorem mutating_map_get (l : List String) : mutating (l.map ApiCall.get) = [] := by
  induction l with
  | nil => rfl
  | cons a t ih => simp [mutating, List.filter_cons, ApiCall.isMutating, ih]

/-- Concrete sample server used by the witnesses. -/
def sampleServer : Server :=
  { id := 1, hostname := "host", tags := [("env", "dev")], image := "ubuntu",
    ssh_keys := ["k1"], status := "deployed" }

/-- Concrete remote behaviour where every call succeeds. -/
def sampleRemote : Remote :=
  { putStatus := 201, reinstallStatus := 200, reinstallBodyStatus := "provisioning",
    deleteStatus := 204, createStatus := 201, createdServer := sampleServer,
    refetch := fun _ => sampleServer }

/-- Server-module parameters with every option unset (defaults of
`get_module_args`, with `state` overridden to `present` where needed). -/
def baseParams : ServerParams :=
  { state := SState.present, id := some 1, project_id := none, plan := none,
    image := none, os_partition_size := none, region := none, hostname := none,
    ssh_keys := none, extra_ip_addresses := none, user_data := none, tags := none,
    spot_market := false, storage_id := none, active_timeout := 1800,
    allow_reinstall := false }

/-- A degenerate random stream. -/
def zeroRand : Nat → Nat := fun _ => 0

/-- A server that never reaches the terminal status. -/
def pendingServer : Server :=
  { id := 7, hostname := "h", tags := [], image := "img", ssh_keys := [],
    status := "provisioning" }

/-! ## Claim theorems -/

/-- C10: `generate_password(n)` returns a string of length
`min(24, max(8, n))` whose first character is a lowercase letter, second an
uppercase letter, third a digit, and all of whose characters are
alphanumeric — hence none of the forbidden characters occur — and every
reinstall request payload carries such a password of requested length 16. -/
theorem generate_password_spec (length : Int) (rand : Nat → Nat)
    (p : ServerParams) (s : Server) :
    (generate_password length rand).data.length = (min 24 (max 8 length)).toNat
    ∧ 8 ≤ (generate_password length rand).data.length
    ∧ (generate_password length rand).data.length ≤ 24
    ∧ (∃ c, (generate_password length rand).data[0]? = some c ∧ c ∈ ascii_lowercase)
    ∧ (∃ c, (generate_password length rand).data[1]? = some c ∧ c ∈ ascii_uppercase)
    ∧ (∃ c, (generate_password length rand).data[2]? = some c ∧ c ∈ ascii_digits)
    ∧ (∀ c ∈ (generate_password length rand).data, c ∈ alnum_chars)
    ∧ (∀ c ∈ (generate_password length rand).data, c ∉ forbidden_chars)
    ∧ ("password", Val.vstr (generate_password 16 rand))
        ∈ (get_reinstall_server_update_request p s rand).1 := by
  have hlow : ascii_lowercase ≠ [] := by decide
  have hup : ascii_uppercase ≠ [] := by decide
  have hdig : ascii_digits ≠ [] := by decide
  have halnum : alnum_chars ≠ [] := by decide
  have hsub : ∀ c ∈ alnum_chars, c ∉ forbidden_chars := by decide
  have hlowsub : ∀ c ∈ ascii_lowercase, c ∈ alnum_chars := by
    intro c hc
    simp only [alnum_chars, List.mem_append]
    exact Or.inl (Or.inr hc)
  have hupsub : ∀ c ∈ ascii_uppercase, c ∈ alnum_chars := by
    intro c hc
    simp only [alnum_chars, List.mem_append]
    exact Or.inl (Or.inl hc)
  have hdigsub : ∀ c ∈ ascii_digits, c ∈ alnum_chars := by
    intro c hc
    simp only [alnum_chars, List.mem_append]
    exact Or.inr hc
  have hmem : ∀ c ∈ (generate_password length rand).data, c ∈ alnum_chars := by
    intro c hc
    rw [generate_password_data] at hc
    simp only [List.mem_cons] at hc
    rcases hc with hc | hc | hc | hc
    · exact hlowsub _ (hc ▸ rand_choice_mem _ hlow _)
    · exact hupsub _ (hc ▸ rand_choice_mem _ hup _)
    · exact hdigsub _ (hc ▸ rand_choice_mem _ hdig _)
    · rcases List.mem_map.mp hc with ⟨i, _, rfl⟩
      exact rand_choice_mem _ halnum _
  have hlen : (generate_password length rand).data.length = (min 24 (max 8 length)).toNat := by
    rw [generate_password_data]
    simp only [List.length_cons, List.length_map, List.length_range]
    split_ifs <;> omega
  refine ⟨hlen, by omega, by omega, ?_, ?_, ?_, hmem, ?_, ?_⟩
  · refine ⟨rand_choice ascii_lowercase (rand 0), ?_, rand_choice_mem _ hlow _⟩
    rw [generate_password_data]
    simp
  · refine ⟨rand_choice ascii_uppercase (rand 1), ?_, rand_choice_mem _ hup _⟩
    rw [generate_password_data]
    simp
  · refine ⟨rand_choice ascii_digits (rand 2), ?_, rand_choice_mem _ hdig _⟩
    rw [generate_password_data]
    simp
  · intro c hc
    exact hsub c (hmem c hc)
  · unfold get_reinstall_server_update_request
    cases p.user_data <;> cases p.os_partition_size <;> cases p.image <;>
      cases p.ssh_keys <;> simp

/-- C9: with poll interval 10 s and timeout 30 s, a resource that never
reaches the `"deployed"` status makes both waiters fail with a reported
timeout error after exactly 30 seconds of waiting — at or after 30 s, and
not before 20 s. -/
theorem convergence_timeout (refetch : Nat → Server) (s : Server)
    (hs : s.status ≠ "deployed")
    (hr : ∀ n, (refetch n).status ≠ "deployed") :
    (wait_for_active refetch 30 s 0 0).1
        = some "Timed out waiting for server to become active"
    ∧ (wait_for_active refetch 30 s 0 0).2.1 = 30
    ∧ (manager_wait_for_active refetch 30 s 0 0).1
        = some "timed out waiting for server to become active"
    ∧ (manager_wait_for_active refetch 30 s 0 0).2 = 30
    ∧ 30 ≤ (wait_for_active refetch 30 s 0 0).2.1
    ∧ ¬ (wait_for_active refetch 30 s 0 0).2.1 < 20 := by
  have h30 : wait_for_active refetch 30 s 0 0
      = (some "Timed out waiting for server to become active", 30,
         ["servers/" ++ toString s.id, "servers/" ++ toString (refetch 0).id,
          "servers/" ++ toString (refetch 1).id]) := by
    rw [wait_for_active.eq_def]
    simp only [if_neg hs, if_neg (by omega : ¬ (30 ≤ 0 + 10))]
    rw [wait_for_active.eq_def]
    simp only [if_neg (hr 0), if_neg (by omega : ¬ (30 ≤ 0 + 10 + 10))]
    rw [wait_for_active.eq_def]
    simp only [if_neg (hr 1), if_pos (by omega : 30 ≤ 0 + 10 + 10 + 10)]
  have h30m : manager_wait_for_active refetch 30 s 0 0
      = (some "timed out waiting for server to become active", 30) := by
    rw [manager_wait_for_active.eq_def]
    simp only [if_neg hs, if_neg (by omega : ¬ (30 ≤ 0 + 10))]
    rw [manager_wait_for_active.eq_def]
    simp only [if_neg (hr 0), if_neg (by omega : ¬ (30 ≤ 0 + 10 + 10))]
    rw [manager_wait_for_active.eq_def]
    simp only [if_neg (hr 1), if_pos (by omega : 30 ≤ 0 + 10 + 10 + 10)]
  rw [h30, h30m]
  exact ⟨rfl, rfl, rfl, rfl, by show (30:ℕ) ≤ 30; omega, by show ¬ (30:ℕ) < 20; omega⟩

/-- Witness for C9: the constant-`provisioning` remote makes the 30-second
waiters time out. -/
theorem convergence_timeout_witness :
    (wait_for_active (fun _ => pendingServer) 30 pendingServer 0 0).1
        = some "Timed out waiting for server to become active"
    ∧ (wait_for_active (fun _ => pendingServer) 30 pendingServer 0 0).2.1 = 30
    ∧ (manager_wait_for_active (fun _ => pendingServer) 30 pendingServer 0 0).1
        = some "timed out waiting for server to become active"
    ∧ (manager_wait_for_active (fun _ => pendingServer) 30 pendingServer 0 0).2 = 30
    ∧ 30 ≤ (wait_for_active (fun _ => pendingServer) 30 pendingServer 0 0).2.1
    ∧ ¬ (wait_for_active (fun _ => pendingServer) 30 pendingServer 0 0).2.1 < 20 :=
  convergence_timeout (fun _ => pendingServer) pendingServer (by decide)
    (fun _ => (by decide : pendingServer.status ≠ "deployed"))

/-- C2: with check mode set and a non-empty plan — an update request that
differs, an existing resource to delete, or a creation with valid
parameters — the module exits with `changed=true` before issuing any
mutating transport call, and `StandardModule._update_resource` never
invokes `_perform_update`. -/
theorem check_mode_purity :
    (∀ (p : ServerParams) (r : Remote) (s : Server) (rand : Nat → Nat),
      server_changed p s rand = true →
      update_state p r true s rand
          = (Outcome.exit true, [ApiCall.get ("servers/" ++ pyOptNatStr p.id)])
        ∧ mutating (update_state p r true s rand).2 = [])
    ∧ (∀ (p : ServerParams) (r : Remote) (s : Server),
      absent_state p r true (some s)
          = (Outcome.exit true, [ApiCall.get ("servers/" ++ pyOptNatStr p.id)])
        ∧ mutating (absent_state p r true (some s)).2 = [])
    ∧ (∀ (p : ServerParams) (r : Remote),
      p.project_id ≠ none → p.region ≠ none → p.plan ≠ none →
      user_data_ok p = true →
      creation_state p r true = (Outcome.exit true, []))
    ∧ (∀ requests : List String, requests ≠ [] →
      standard_update_resource requests true = (Outcome.exit true, false)) := by
  refine ⟨?_, ?_, ?_, ?_⟩
  · intro p r s rand h
    have h1 : update_state p r true s rand
        = (Outcome.exit (server_changed p s rand),
           [ApiCall.get ("servers/" ++ pyOptNatStr p.id)]) := rfl
    rw [h1, h]
    exact ⟨rfl, rfl⟩
  · intro p r s
    exact ⟨rfl, rfl⟩
  · intro p r h1 h2 h3 h4
    unfold creation_state
    rw [if_neg, if_neg, if_pos rfl]
    · rw [h4]
      simp
    · simp [Option.isNone_iff_eq_none, h1, h2, h3]
  · intro requests h
    cases requests with
    | nil => exact absurd rfl h
    | cons a t => rfl

/-- Server-module parameters for a valid creation (no `id`; `project_id`,
`region` and `plan` supplied). -/
def createParams : ServerParams :=
  { baseParams with
    id := none
    project_id := some "123"
    region := some "eu_nord_1"
    plan := some "cloud_vps_1" }

/-- Witness for C2 at concrete inputs: a hostname change in check mode,
a found server with `state=absent` in check mode, a valid creation in
check mode, and a non-empty standard-module request set. -/
theorem check_mode_purity_witness :
    server_changed { baseParams with hostname := some "renamed" } sampleServer zeroRand
        = true
    ∧ update_state { baseParams with hostname := some "renamed" } sampleRemote true
        sampleServer zeroRand = (Outcome.exit true, [ApiCall.get "servers/1"])
    ∧ absent_state baseParams sampleRemote true (some sampleServer)
        = (Outcome.exit true, [ApiCall.get "servers/1"])
    ∧ creation_state createParams sampleRemote true = (Outcome.exit true, [])
    ∧ standard_update_resource ["basic"] true = (Outcome.exit true, false) :=
  ⟨by decide,
   (check_mode_purity.1 { baseParams with hostname := some "renamed" } sampleRemote
     sampleServer zeroRand (by decide)).1,
   (check_mode_purity.2.1 baseParams sampleRemote sampleServer).1,
   check_mode_purity.2.2.1 createParams sampleRemote (by decide) (by decide) (by decide)
     (by decide),
   check_mode_purity.2.2.2 ["basic"] (by decide)⟩

/-- An `ApiCall` that is the reinstall action POST. -/
def ApiCall.isPost : ApiCall → Bool
  | .post _ _ => true
  | _ => false

/-- C4: when a reinstall-requiring field differs and `allow_reinstall` is
false, check mode still reports `changed=true`, and a normal run
terminates with a fatal error — never issuing the reinstall POST — with
the dedicated message once the basic update (if any) succeeded. -/
theorem reinstall_opt_in (p : ServerParams) (r : Remote) (s : Server) (rand : Nat → Nat)
    (hreb : (get_reinstall_server_update_request p s rand).2 = true)
    (hallow : p.allow_reinstall = false) :
    (update_state p r true s rand).1 = Outcome.exit true
    ∧ ((update_state p r false s rand).1).isFail = true
    ∧ (∀ c ∈ (update_state p r false s rand).2, c.isPost = false)
    ∧ (r.putStatus = 201 →
        (update_state p r false s rand).1
          = Outcome.fail "The options you've selected require server reinstalling.") := by
  have h1 : update_state p r true s rand
      = (Outcome.exit ((get_basic_server_update_request p s).2
          || (get_reinstall_server_update_request p s rand).2),
         [ApiCall.get ("servers/" ++ pyOptNatStr p.id)]) := rfl
  refine ⟨by rw [h1, hreb, Bool.or_true], ?_, ?_, ?_⟩
  · by_cases hb : (get_basic_server_update_request p s).2 = true
    · by_cases hput : r.putStatus = 201
      · simp [update_state, update_state_rebuild, hreb, hb, hallow, hput, Outcome.isFail]
      · simp [update_state, hreb, hb, hput, Outcome.isFail]
    · simp [update_state, update_state_rebuild, hreb,
        Bool.eq_false_iff.mpr hb, hallow, Outcome.isFail]
  · by_cases hb : (get_basic_server_update_request p s).2 = true
    · by_cases hput : r.putStatus = 201
      · simp [update_state, update_state_rebuild, hreb, hb, hallow, hput, ApiCall.isPost]
      · simp [update_state, hreb, hb, hput, ApiCall.isPost]
    · simp [update_state, update_state_rebuild, hreb,
        Bool.eq_false_iff.mpr hb, hallow, ApiCall.isPost]
  · intro hput
    by_cases hb : (get_basic_server_update_request p s).2 = true
    · simp [update_state, update_state_rebuild, hreb, hb, hallow, hput]
    · simp [update_state, update_state_rebuild, hreb,
        Bool.eq_false_iff.mpr hb, hallow]

/-- Witness for C4: an `image` change without `allow_reinstall`. -/
theorem reinstall_opt_in_witness :
    (get_reinstall_server_update_request { baseParams with image := some "debian" }
        sampleServer zeroRand).2 = true
    ∧ (update_state { baseParams with image := some "debian" } sampleRemote true
        sampleServer zeroRand).1 = Outcome.exit true
    ∧ (update_state { baseParams with image := some "debian" } sampleRemote false
        sampleServer zeroRand).1
        = Outcome.fail "The options you've selected require server reinstalling." :=
  ⟨by decide,
   (reinstall_opt_in { baseParams with image := some "debian" } sampleRemote sampleServer
     zeroRand (by decide) (by decide)).1,
   (reinstall_opt_in { baseParams with image := some "debian" } sampleRemote sampleServer
     zeroRand (by decide) (by decide)).2.2.2 (by decide)⟩

/-- Parameters planning both a basic change and a reinstall change. -/
def bothChangesParams : ServerParams :=
  { baseParams with
    hostname := some "newhost"
    image := some "newimg"
    allow_reinstall := true }

/-- C3 counterexample: with both a hostname change and an image change
planned (and `allow_reinstall` set), the executed mutating calls are the
basic PUT followed by the reinstall POST — the first mutating call is the
basic field update, so the disruptive operation is NOT executed before it. -/
theorem reinstall_order_counterexample :
    (get_basic_server_update_request bothChangesParams sampleServer).2 = true
    ∧ (get_reinstall_server_update_request bothChangesParams sampleServer zeroRand).2 = true
    ∧ mutating (update_state bothChangesParams sampleRemote false sampleServer zeroRand).2
      = [ApiCall.put "servers/1" [("hostname", Val.vstr "newhost")],
         ApiCall.post "servers/1/actions"
           [("image", Val.vstr "newimg"),
            ("password", Val.vstr "aA0AAAAAAAAAAAAA"),
            ("type", Val.vstr "reinstall")]]
    ∧ (mutating (update_state bothChangesParams sampleRemote false sampleServer
        zeroRand).2).head?
      = some (ApiCall.put "servers/1" [("hostname", Val.vstr "newhost")]) := by
  refine ⟨rfl, rfl, ?_, ?_⟩ <;> rfl

/-- C3 amended: when both a basic field update and a reinstall-requiring
change are planned with `allow_reinstall`, the BASIC update PUT is executed
first and the disruptive reinstall POST second (the reverse of the claimed
order). -/
theorem basic_update_precedes_reinstall (p : ServerParams) (r : Remote) (s : Server)
    (rand : Nat → Nat)
    (hb : (get_basic_server_update_request p s).2 = true)
    (hreb : (get_reinstall_server_update_request p s rand).2 = true)
    (hallow : p.allow_reinstall = true) (hput : r.putStatus = 201) :
    mutating (update_state p r false s rand).2
      = [ApiCall.put ("servers/" ++ toString s.id) (get_basic_server_update_request p s).1,
         ApiCall.post ("servers/" ++ toString s.id ++ "/actions")
           (get_reinstall_server_update_request p s rand).1] := by
  by_cases hre : r.reinstallStatus = 200
  · by_cases hst : p.state = SState.active
    · rcases hw : (wait_for_active r.refetch p.active_timeout
        { s with status := r.reinstallBodyStatus } 0 0).1 with _ | m
      · simp [update_state, update_state_rebuild, hb, hreb, hallow, hput, hre, hst, hw,
          mutating, List.filter_append, ApiCall.isMutating, mutating_map_get,
          List.filter_cons]
      · simp [update_state, update_state_rebuild, hb, hreb, hallow, hput, hre, hst, hw,
          mutating, List.filter_append, ApiCall.isMutating, mutating_map_get,
          List.filter_cons]
    · simp [update_state, update_state_rebuild, hb, hreb, hallow, hput, hre, hst,
        mutating, List.filter_append, ApiCall.isMutating, List.filter_cons]
  · simp [update_state, update_state_rebuild, hb, hreb, hallow, hput, hre,
      mutating, List.filter_append, ApiCall.isMutating, List.filter_cons]

/-- Parameters planning a hostname change and an SSH-key change. -/
def hostKeyParams : ServerParams :=
  { baseParams with
    hostname := some "h2"
    ssh_keys := some ["k9"]
    allow_reinstall := true }

/-- Witness for the amended C3 ordering at a concrete input. -/
theorem basic_update_precedes_reinstall_witness :
    (get_basic_server_update_request hostKeyParams sampleServer).2 = true
    ∧ mutating (update_state hostKeyParams sampleRemote false sampleServer zeroRand).2
      = [ApiCall.put "servers/1"
           (get_basic_server_update_request hostKeyParams sampleServer).1,
         ApiCall.post "servers/1/actions"
           (get_reinstall_server_update_request hostKeyParams sampleServer zeroRand).1] :=
  ⟨by decide,
   basic_update_precedes_reinstall hostKeyParams sampleRemote sampleServer zeroRand
     (by decide) (by decide) (by decide) (by decide)⟩

/-- C5: deleting an attached/targeted resource executes exactly the
detach (untarget) side-effect followed by the Delete — Delete last, never
the reverse — while an unattached resource gets only the Delete call. -/
theorem detach_before_delete (p : FipParams) (r : FipRemote) (f : Fip)
    (sp : StorageParams) (sr : StorageRemote) (st : Storage)
    (hu : r.untargetStatus = 200) (hd : r.deleteStatus = 204)
    (hsdet : sr.detachStatus = 204) (hsdel : sr.deleteStatus = 204) :
    (f.targeted_to ≠ 0 →
      delete_fip p r false f
        = (Outcome.exit true,
           [ApiCall.put ("ips/" ++ f.id) [("targeted_to", Val.vint 0)],
            ApiCall.delete ("ips/" ++ pyOptStr p.id)]))
    ∧ (f.targeted_to = 0 →
      delete_fip p r false f
        = (Outcome.exit true, [ApiCall.delete ("ips/" ++ pyOptStr p.id)]))
    ∧ (storage_attached st = true →
      delete_storage sp sr st
        = (Outcome.exit true,
           [ApiCall.delete ("storages/" ++ toString st.id ++ "/attachments"),
            ApiCall.delete ("storages/" ++ pyOptNatStr sp.id)]))
    ∧ (storage_attached st = false →
      delete_storage sp sr st
        = (Outcome.exit true, [ApiCall.delete ("storages/" ++ pyOptNatStr sp.id)])) := by
  refine ⟨?_, ?_, ?_, ?_⟩ <;> intro h <;>
    simp [delete_fip, delete_storage, h, hu, hd, hsdet, hsdel]

/-- Witness for C5: a targeted floating IP and an attached storage volume. -/
theorem detach_before_delete_witness :
    delete_fip
        { id := some "fip-1", address := none, project_id := some 5, ptr_record := none,
          a_record := none, tags := none, route_ip_id := none, target_server_id := none }
        { byIdStatus := 200,
          byId := { id := "fip-1", address := "1.2.3.4", ptr_record := none,
                    a_record := none, tags := [], route_ip_id := none,
                    target_server_id := some 9, targeted_to := 9 },
          listResp := [], untargetStatus := 200, deleteStatus := 204 }
        false
        { id := "fip-1", address := "1.2.3.4", ptr_record := none, a_record := none,
          tags := [], route_ip_id := none, target_server_id := some 9, targeted_to := 9 }
      = (Outcome.exit true,
         [ApiCall.put "ips/fip-1" [("targeted_to", Val.vint 0)],
          ApiCall.delete "ips/fip-1"])
    ∧ delete_storage
        { id := some 4, size := none, description := none, target_server_id := none }
        { detachStatus := 204, deleteStatus := 204 }
        { id := 4, size := 100, description := none, target_server_id := some 9 }
      = (Outcome.exit true,
         [ApiCall.delete "storages/4/attachments", ApiCall.delete "storages/4"]) :=
  ⟨(detach_before_delete
      { id := some "fip-1", address := none, project_id := some 5, ptr_record := none,
        a_record := none, tags := none, route_ip_id := none, target_server_id := none }
      { byIdStatus := 200,
        byId := { id := "fip-1", address := "1.2.3.4", ptr_record := none,
                  a_record := none, tags := [], route_ip_id := none,
                  target_server_id := some 9, targeted_to := 9 },
        listResp := [], untargetStatus := 200, deleteStatus := 204 }
      { id := "fip-1", address := "1.2.3.4", ptr_record := none, a_record := none,
        tags := [], route_ip_id := none, target_server_id := some 9, targeted_to := 9 }
      { id := some 4, size := none, description := none, target_server_id := none }
      { detachStatus := 204, deleteStatus := 204 }
      { id := 4, size := 100, description := none, target_server_id := some 9 }
      rfl rfl rfl rfl).1 (by decide),
   (detach_before_delete
      { id := some "fip-1", address := none, project_id := some 5, ptr_record := none,
        a_record := none, tags := none, route_ip_id := none, target_server_id := none }
      { byIdStatus := 200,
        byId := { id := "fip-1", address := "1.2.3.4", ptr_record := none,
                  a_record := none, tags := [], route_ip_id := none,
                  target_server_id := some 9, targeted_to := 9 },
        listResp := [], untargetStatus := 200, deleteStatus := 204 }
      { id := "fip-1", address := "1.2.3.4", ptr_record := none, a_record := none,
        tags := [], route_ip_id := none, target_server_id := some 9, targeted_to := 9 }
      { id := some 4, size := none, description := none, target_server_id := none }
      { detachStatus := 204, deleteStatus := 204 }
      { id := 4, size := 100, description := none, target_server_id := some 9 }
      rfl rfl rfl rfl).2.2.1 (by decide)⟩

/-- C6 counterexample: the sshkey module's ambiguity error is the FIXED
string "More than one SSH key matches the given parameters." — two
entirely different pairs of matching keys produce the identical message,
so the error cannot be naming the matches; the resolution is still fatal
(no silent pick). -/
theorem ambiguity_naming_counterexample :
    sshkey_resolve
        [{ id := 1, label := "k1", key := "ssh-ed25519 AAAA", fingerprint := "f1" },
         { id := 2, label := "k2", key := "ssh-ed25519 BBBB", fingerprint := "f2" }]
      = Except.error "More than one SSH key matches the given parameters."
    ∧ sshkey_resolve
        [{ id := 3, label := "other3", key := "ssh-rsa CCCC", fingerprint := "f3" },
         { id := 4, label := "other4", key := "ssh-rsa DDDD", fingerprint := "f4" }]
      = Except.error "More than one SSH key matches the given parameters."
    ∧ sshkey_resolve
        [{ id := 1, label := "k1", key := "ssh-ed25519 AAAA", fingerprint := "f1" },
         { id := 2, label := "k2", key := "ssh-ed25519 BBBB", fingerprint := "f2" }]
      = sshkey_resolve
        [{ id := 3, label := "other3", key := "ssh-rsa CCCC", fingerprint := "f3" },
         { id := 4, label := "other4", key := "ssh-rsa DDDD", fingerprint := "f4" }] := by
  refine ⟨rfl, rfl, rfl⟩

/-- C6 amended: identity resolution without an opaque ID is fatal on two
or more matches — never a silent pick of one — with exactly one match
returned as the resource and zero yielding NotFound, in all three
resolvers; the floating-IP resolver and `CherryModule._get_resource`
name the matches in the error message, while the sshkey module fails
with a fixed message that does not name them. -/
theorem ambiguity_detection (p : FipParams) (r : FipRemote)
    (keys : List String) (params : String → Option Val)
    (resp : List (List (String × Val))) (existing_keys : List SshKey)
    (hid : p.id = none) :
    (2 ≤ (r.listResp.filter (fip_matches p)).length →
      get_fip p r = Except.error ("More than one matching floating IP found: "
        ++ renderFips (r.listResp.filter (fip_matches p))))
    ∧ (∀ f1, r.listResp.filter (fip_matches p) = [f1] →
      get_fip p r = Except.ok (some f1))
    ∧ (r.listResp.filter (fip_matches p) = [] →
      get_fip p r = Except.ok none)
    ∧ (2 ≤ (resp.filter
          (fun res => keys.any
            (fun k => decide (params k = some (lookup_item res k))))).length →
      cherry_get_resource keys params resp
        = Except.error ("Multiple matching resources found: "
            ++ renderResources (resp.filter
              (fun res => keys.any
                (fun k => decide (params k = some (lookup_item res k)))))))
    ∧ (∀ r1, resp.filter
          (fun res => keys.any
            (fun k => decide (params k = some (lookup_item res k)))) = [r1] →
      cherry_get_resource keys params resp = Except.ok (some r1))
    ∧ (resp.filter
          (fun res => keys.any
            (fun k => decide (params k = some (lookup_item res k)))) = [] →
      cherry_get_resource keys params resp = Except.ok none)
    ∧ (2 ≤ existing_keys.length →
      sshkey_resolve existing_keys
        = Except.error "More than one SSH key matches the given parameters.")
    ∧ (∀ k1, existing_keys = [k1] → sshkey_resolve existing_keys = Except.ok (some k1))
    ∧ (existing_keys = [] → sshkey_resolve existing_keys = Except.ok none) := by
  refine ⟨?_, ?_, ?_, ?_, ?_, ?_, ?_, ?_, ?_⟩
  · intro h
    simp only [get_fip, hid]
    rw [if_pos (by omega : (r.listResp.filter (fip_matches p)).length > 1)]
  · intro f1 h
    simp only [get_fip, hid]
    rw [h]
    rfl
  · intro h
    simp only [get_fip, hid]
    rw [h]
    rfl
  · intro h
    simp only [cherry_get_resource]
    have hgt : (resp.filter
        (fun res => keys.any
          (fun k => decide (params k = some (lookup_item res k))))).length > 1 := h
    rw [if_pos hgt]
  · intro r1 h
    simp only [cherry_get_resource]
    rw [h]
    rfl
  · intro h
    simp only [cherry_get_resource]
    rw [h]
    rfl
  · intro h
    unfold sshkey_resolve
    rw [if_pos (by omega : existing_keys.length > 1)]
  · intro k1 h
    unfold sshkey_resolve
    rw [h]
    rfl
  · intro h
    unfold sshkey_resolve
    rw [h]
    rfl

/-- A normalized floating IP listing entry used by the C6 witness. -/
def fipA : Fip :=
  { id := "a", address := "1.2.3.4", ptr_record := none, a_record := none,
    tags := [], route_ip_id := none, target_server_id := none, targeted_to := 0 }

/-- A second listing entry matching the same address. -/
def fipB : Fip :=
  { id := "b", address := "1.2.3.4", ptr_record := none, a_record := none,
    tags := [], route_ip_id := none, target_server_id := none, targeted_to := 0 }

/-- Module parameters looking a floating IP up by address (no opaque ID). -/
def lookupFipParams : FipParams :=
  { id := none, address := some "1.2.3.4", project_id := some 5, ptr_record := none,
    a_record := none, tags := none, route_ip_id := none, target_server_id := none }

/-- A remote whose project listing holds two IPs with the same address. -/
def twoFipRemote : FipRemote :=
  { byIdStatus := 200, byId := fipA, listResp := [fipA, fipB],
    untargetStatus := 200, deleteStatus := 204 }

/-- `_get_resource` module parameters valuing only the `label` key. -/
def cherryParamsFun : String → Option Val :=
  fun k => if k = "label" then some (Val.vstr "k1") else none

/-- Two listed resources both carrying the looked-up label. -/
def cherryResp : List (List (String × Val)) :=
  [[("label", Val.vstr "k1"), ("id", Val.vint 1)],
   [("label", Val.vstr "k1"), ("id", Val.vint 2)]]

/-- A single listed SSH key. -/
def sampleKey : SshKey :=
  { id := 1, label := "k1", key := "ssh-ed25519 AAAA", fingerprint := "f1" }

/-- Witness for the amended C6: an ambiguous floating-IP listing and an
ambiguous `_get_resource` listing fail with errors interpolating the
matches; a single SSH key resolves to that key and an empty listing to
NotFound. -/
theorem ambiguity_detection_witness :
    get_fip lookupFipParams twoFipRemote
      = Except.error ("More than one matching floating IP found: "
          ++ renderFips [fipA, fipB])
    ∧ cherry_get_resource ["label"] cherryParamsFun cherryResp
      = Except.error ("Multiple matching resources found: "
          ++ renderResources cherryResp)
    ∧ sshkey_resolve [sampleKey] = Except.ok (some sampleKey)
    ∧ sshkey_resolve [] = Except.ok none := by
  refine ⟨?_, ?_, ?_, ?_⟩
  · have h := (ambiguity_detection lookupFipParams twoFipRemote []
      (fun _ => none) [] [] rfl).1 (by decide)
    rw [h]
    rfl
  · have h := (ambiguity_detection lookupFipParams twoFipRemote ["label"]
      cherryParamsFun cherryResp [] rfl).2.2.2.1 (by decide)
    rw [h]
    rfl
  · exact (ambiguity_detection lookupFipParams twoFipRemote [] (fun _ => none) []
      [sampleKey] rfl).2.2.2.2.2.2.2.1 sampleKey rfl
  · exact (ambiguity_detection lookupFipParams twoFipRemote [] (fun _ => none) []
      [] rfl).2.2.2.2.2.2.2.2 rfl

/-- C7: an unset (`None`) field never appears in the computed update
request — regardless of the observed value — and a field whose explicit
value equals the observed value contributes nothing, so a DesiredSpec
identical to the observed resource yields an empty request and
`changed=false`, for the server basic diff, the storage diff, and the
untracked fields of the reinstall diff. -/
theorem noop_safety (p : ServerParams) (s : Server) (sp : StorageParams) (st : Storage)
    (rand : Nat → Nat) :
    ((p.hostname = none ∨ p.hostname = some s.hostname) →
      ∀ v, ("hostname", v) ∉ (get_basic_server_update_request p s).1)
    ∧ ((p.tags = none ∨ p.tags = some s.tags) →
      ∀ v, ("tags", v) ∉ (get_basic_server_update_request p s).1)
    ∧ (p.hostname = none → ∀ h2,
      get_basic_server_update_request p { s with hostname := h2 }
        = get_basic_server_update_request p s)
    ∧ ((p.hostname = none ∨ p.hostname = some s.hostname) →
      (p.tags = none ∨ p.tags = some s.tags) →
      get_basic_server_update_request p s = ([], false))
    ∧ ((sp.size = none ∨ sp.size = some st.size) →
      ∀ v, ("size", v) ∉ (storage_get_update_request sp st).1)
    ∧ ((sp.description = none ∨ st.description = sp.description) →
      ∀ v, ("description", v) ∉ (storage_get_update_request sp st).1)
    ∧ ((sp.size = none ∨ sp.size = some st.size) →
      (sp.description = none ∨ st.description = sp.description) →
      storage_get_update_request sp st = ([], false))
    ∧ (p.user_data = none →
      ∀ v, ("user_data", v) ∉ (get_reinstall_server_update_request p s rand).1)
    ∧ (p.user_data = none → p.os_partition_size = none → p.image = none →
      p.ssh_keys = none →
      (get_reinstall_server_update_request p s rand).2 = false) := by
  refine ⟨?_, ?_, ?_, ?_, ?_, ?_, ?_, ?_, ?_⟩
  · intro h v
    unfold get_basic_server_update_request
    rcases h with h | h <;> rw [h] <;>
      rcases ht : p.tags with _ | t <;> simp <;> split_ifs <;> simp
  · intro h v
    unfold get_basic_server_update_request
    rcases h with h | h <;> rw [h] <;>
      rcases hh : p.hostname with _ | hn <;> simp <;> split_ifs <;> simp
  · intro h h2
    unfold get_basic_server_update_request
    rw [h]
  · rintro (h1 | h1) (h2 | h2) <;> unfold get_basic_server_update_request <;>
      rw [h1, h2] <;> simp
  · intro h v
    unfold storage_get_update_request
    rcases h with h | h <;> rw [h] <;>
      rcases hd : sp.description with _ | d <;> simp <;> split_ifs <;> simp
  · intro h v
    unfold storage_get_update_request
    rcases hd : sp.description with _ | d
    · rcases hs : sp.size with _ | sz <;> simp; split_ifs <;> simp
    · rcases h with h | h
      · rw [hd] at h
        cases h
      · rw [hd] at h
        rcases hs : sp.size with _ | sz <;> simp [h]; split_ifs <;> simp
  · intro h1 h2
    unfold storage_get_update_request
    rcases h1 with h1 | h1 <;> rw [h1] <;>
      (rcases hd : sp.description with _ | d
       · simp
       · rcases h2 with h2 | h2
         · rw [hd] at h2
           cases h2
         · rw [hd] at h2
           simp [h2])
  · intro h v
    unfold get_reinstall_server_update_request
    rw [h]
    rcases p.os_partition_size with _ | osz <;> rcases p.image with _ | im <;>
      rcases p.ssh_keys with _ | ks <;> simp <;> split_ifs <;> simp
  · intro h1 h2 h3 h4
    unfold get_reinstall_server_update_request
    rw [h1, h2, h3, h4]

/-- Witness for C7: an all-unset DesiredSpec against arbitrary observed
resources, and a DesiredSpec identical to the observed resource. -/
theorem noop_safety_witness :
    get_basic_server_update_request baseParams sampleServer = ([], false)
    ∧ get_basic_server_update_request
        { baseParams with hostname := some "host", tags := some [("env", "dev")] }
        sampleServer = ([], false)
    ∧ storage_get_update_request
        { id := some 4, size := none, description := none, target_server_id := none }
        { id := 4, size := 100, description := some "d", target_server_id := none }
      = ([], false)
    ∧ (get_reinstall_server_update_request baseParams sampleServer zeroRand).2 = false :=
  ⟨(noop_safety baseParams sampleServer
      { id := some 4, size := none, description := none, target_server_id := none }
      { id := 4, size := 100, description := some "d", target_server_id := none }
      zeroRand).2.2.2.1 (Or.inl rfl) (Or.inl rfl),
   (noop_safety { baseParams with hostname := some "host", tags := some [("env", "dev")] }
      sampleServer
      { id := some 4, size := none, description := none, target_server_id := none }
      { id := 4, size := 100, description := some "d", target_server_id := none }
      zeroRand).2.2.2.1 (Or.inr rfl) (Or.inr rfl),
   (noop_safety baseParams sampleServer
      { id := some 4, size := none, description := none, target_server_id := none }
      { id := 4, size := 100, description := some "d", target_server_id := none }
      zeroRand).2.2.2.2.2.2.1 (Or.inl rfl) (Or.inl rfl),
   (noop_safety baseParams sampleServer
      { id := some 4, size := none, description := none, target_server_id := none }
      { id := 4, size := 100, description := some "d", target_server_id := none }
      zeroRand).2.2.2.2.2.2.2.2 rfl rfl rfl rfl⟩

/-- Stripping the trailing separator undoes appending it. -/
theorem strip_trailing_dot_append (s : String) :
    strip_trailing_dot (s ++ ".") = s := by
  unfold strip_trailing_dot
  have hdata : (s ++ ".").data = s.data ++ ['.'] := rfl
  rw [hdata, List.getLast?_concat]
  simp only [if_true, List.dropLast_concat]

/-- C8: the floating-IP diff normalizes both sides before comparing — an
observed `ptr_record` with a trailing `'.'` equals the caller's value
without it, and an observed fully-qualified `a_record` equals the caller's
relative name with the zone suffix removed — so the diff reports no
change. -/
theorem normalization_no_change (p : FipParams) (f : Fip) (ptr a : String)
    (hp : p.ptr_record = some ptr) (hf : f.ptr_record = some (ptr ++ "."))
    (ha : p.a_record = some (strip_zone a)) (hfa : f.a_record = some a)
    (ht : p.tags = none) (hro : p.route_ip_id = none)
    (hts : p.target_server_id = none) :
    fip_get_update_request p f = ([], false) := by
  unfold fip_get_update_request
  rw [hf, hfa, hp, ha, ht, hro, hts]
  simp [strip_trailing_dot_append]

/-- Witness for C8: observed `"host."` vs caller `"host"`, and observed
`"n.cloud.cherryservers.net"` vs caller `"n"`. -/
theorem normalization_no_change_witness :
    strip_zone "n.cloud.cherryservers.net" = "n"
    ∧ fip_get_update_request
        { id := some "fip-1", address := none, project_id := some 5,
          ptr_record := some "host", a_record := some "n", tags := none,
          route_ip_id := none, target_server_id := none }
        { id := "fip-1", address := "1.2.3.4", ptr_record := some "host.",
          a_record := some "n.cloud.cherryservers.net", tags := [],
          route_ip_id := none, target_server_id := none, targeted_to := 0 }
      = ([], false) :=
  ⟨by decide,
   normalization_no_change
     { id := some "fip-1", address := none, project_id := some 5,
       ptr_record := some "host", a_record := some "n", tags := none,
       route_ip_id := none, target_server_id := none }
     { id := "fip-1", address := "1.2.3.4", ptr_record := some "host.",
       a_record := some "n.cloud.cherryservers.net", tags := [],
       route_ip_id := none, target_server_id := none, targeted_to := 0 }
     "host" "n.cloud.cherryservers.net" rfl rfl (by decide) rfl rfl rfl rfl⟩

end Cherry
